import Mathlib

/-!
Verification of the microblog ActivityPub core against its specification.

The TypeScript sources are shallowly embedded as Lean functions:
pure string manipulation is modelled on `List Char` (JavaScript string
primitives such as `split`, `replace`, `startsWith`, `endsWith`, `slice`
operate per character), the Web Crypto SHA-256 digest is implemented
concretely from FIPS 180-4, `btoa` is implemented as standard base64,
the RSASSA-PKCS1-v1_5 signing primitive is an abstract function
parameter (a signing-only key handle), network and database effects are
explicit parameters and result values: a handler receives the outcome
of each outbound fetch as data and returns its HTTP status together
with the list of side effects it attempted, and the D1 `account_keys`
table is a list of rows whose UNIQUE(user_id) constraint (migration
0003) is enforced by the insert model.
-/

namespace Microblog

/-! ## JavaScript string primitives, modelled on character lists -/

/-- Models `String.prototype.replace(c, r)` with a single-character
pattern: only the first occurrence is replaced. -/
def replaceFirstChar (c r : Char) : List Char → List Char
  | [] => []
  | x :: xs => if x = c then r :: xs else x :: replaceFirstChar c r xs

/-- Models `String.prototype.split(sep)` for a one-character separator:
always returns at least one (possibly empty) component. -/
def splitOnChar (sep : Char) : List Char → List (List Char)
  | [] => [[]]
  | x :: xs =>
    if x = sep then [] :: splitOnChar sep xs
    else match splitOnChar sep xs with
      | [] => [[x]]
      | r :: rs => (x :: r) :: rs

/-- Models `String.prototype.startsWith`. -/
def listStartsWith (p l : List Char) : Bool := decide (l.take p.length = p)

/-- Byte-wise (memcmp) order on character lists: the collation SQLite
applies to TEXT columns, used by `ORDER BY created_at DESC`. -/
def charListLe : List Char → List Char → Bool
  | [], _ => true
  | _ :: _, [] => false
  | a :: as, b :: bs =>
    if a.toNat < b.toNat then true
    else if b.toNat < a.toNat then false
    else charListLe as bs

/-- Byte-wise string order lifted to `String`. -/
def strLe (a b : String) : Bool := charListLe a.data b.data

/-- Models `content.replace(/\n/g, '<br>')`: a global replacement of
every newline by a literal `<br>`. -/
def newlinesToBr : List Char → List Char
  | [] => []
  | c :: cs =>
    if c = '\n' then '<' :: 'b' :: 'r' :: '>' :: newlinesToBr cs
    else c :: newlinesToBr cs

/-- Models `new TextEncoder().encode(s)`: the UTF-8 bytes of a string,
as natural numbers below 256. -/
def utf8Bytes (s : String) : List Nat := s.toUTF8.toList.map (fun b => b.toNat)

/-! ## base64 (`btoa`) -/

/-- The base64 alphabet character for a 6-bit value. -/
def b64Char (n : Nat) : Char :=
  "ABCDEFGHIJKLMNOPQRSTUVWXYZabcdefghijklmnopqrstuvwxyz0123456789+/".data.getD n '='

/-- Models `btoa` applied to a byte sequence: standard base64 with
`=` padding. -/
def base64Encode : List Nat → String
  | [] => ""
  | [a] =>
    let n := a % 256 * 65536
    String.mk [b64Char (n / 262144), b64Char (n / 4096 % 64), '=', '=']
  | [a, b] =>
    let n := a % 256 * 65536 + b % 256 * 256
    String.mk [b64Char (n / 262144), b64Char (n / 4096 % 64), b64Char (n / 64 % 64), '=']
  | a :: b :: c :: rest =>
    let n := a % 256 * 65536 + b % 256 * 256 + c % 256
    String.mk [b64Char (n / 262144), b64Char (n / 4096 % 64), b64Char (n / 64 % 64),
      b64Char (n % 64)] ++ base64Encode rest

/-! ## SHA-256 (`crypto.subtle.digest('SHA-256', _)`), from FIPS 180-4 -/

/-- Truncation to a 32-bit word. -/
def w32 (n : Nat) : Nat := n % 4294967296

/-- Right rotation of a 32-bit word. -/
def rotr32 (n x : Nat) : Nat := w32 (x / 2 ^ n + x % 2 ^ n * 2 ^ (32 - n))

/-- Logical right shift of a 32-bit word. -/
def shr32 (n x : Nat) : Nat := x / 2 ^ n

/-- Bitwise complement of a 32-bit word. -/
def bnot32 (x : Nat) : Nat := 4294967295 - w32 x

/-- The SHA-256 choice function. -/
def shaCh (x y z : Nat) : Nat := (x &&& y) ^^^ (bnot32 x &&& z)

/-- The SHA-256 majority function. -/
def shaMaj (x y z : Nat) : Nat := (x &&& y) ^^^ (x &&& z) ^^^ (y &&& z)

/-- The SHA-256 Sigma-0 compression function. -/
def bigSigma0 (x : Nat) : Nat := rotr32 2 x ^^^ rotr32 13 x ^^^ rotr32 22 x

/-- The SHA-256 Sigma-1 compression function. -/
def bigSigma1 (x : Nat) : Nat := rotr32 6 x ^^^ rotr32 11 x ^^^ rotr32 25 x

/-- The SHA-256 sigma-0 message-schedule function. -/
def smallSigma0 (x : Nat) : Nat := rotr32 7 x ^^^ rotr32 18 x ^^^ shr32 3 x

/-- The SHA-256 sigma-1 message-schedule function. -/
def smallSigma1 (x : Nat) : Nat := rotr32 17 x ^^^ rotr32 19 x ^^^ shr32 10 x

/-- The 64 SHA-256 round constants (FIPS 180-4 section 4.2.2), in
decimal. -/
def shaK : List Nat :=
  [1116352408, 1899447441, 3049323471, 3921009573, 961987163, 1508970993,
   2453635748, 2870763221, 3624381080, 310598401, 607225278, 1426881987,
   1925078388, 2162078206, 2614888103, 3248222580, 3835390401, 4022224774,
   264347078, 604807628, 770255983, 1249150122, 1555081692, 1996064986,
   2554220882, 2821834349, 2952996808, 3210313671, 3336571891, 3584528711,
   113926993, 338241895, 666307205, 773529912, 1294757372, 1396182291,
   1695183700, 1986661051, 2177026350, 2456956037, 2730485921, 2820302411,
   3259730800, 3345764771, 3516065817, 3600352804, 4094571909, 275423344,
   430227734, 506948616, 659060556, 883997877, 958139571, 1322822218,
   1537002063, 1747873779, 1955562222, 2024104815, 2227730452, 2361852424,
   2428436474, 2756734187, 3204031479, 3329325298]

/-- The SHA-256 initial hash value (FIPS 180-4 section 5.3.3), in
decimal. -/
def shaH0 : List Nat :=
  [1779033703, 3144134277, 1013904242, 2773480762,
   1359893119, 2600822924, 528734635, 1541459225]

/-- Big-endian byte decomposition of a number into `k` bytes. -/
def bytesBE (k n : Nat) : List Nat :=
  (List.range k).map (fun i => n / 2 ^ (8 * (k - 1 - i)) % 256)

/-- SHA-256 message padding: a 0x80 byte, zeros to 56 mod 64, and the
bit length as 8 big-endian bytes. -/
def shaPad (msg : List Nat) : List Nat :=
  let padLen := (119 - msg.length % 64) % 64
  msg ++ [0x80] ++ List.replicate padLen 0 ++ bytesBE 8 (8 * msg.length)

/-- Split a padded message into 64-byte blocks. -/
def toBlocks : List Nat → List (List Nat)
  | [] => []
  | x :: xs => ((x :: xs).take 64) :: toBlocks ((x :: xs).drop 64)
termination_by l => l.length
decreasing_by simp [List.length_drop]; omega

/-- The 16 initial 32-bit message-schedule words of a block. -/
def blockWords (block : List Nat) : List Nat :=
  (List.range 16).map (fun i =>
    block.getD (4 * i) 0 * 16777216 + block.getD (4 * i + 1) 0 * 65536 +
    block.getD (4 * i + 2) 0 * 256 + block.getD (4 * i + 3) 0)

/-- Extension of the message schedule to 64 words. -/
def extendWords (ws : List Nat) : List Nat :=
  (List.range 48).foldl
    (fun w _ =>
      w ++ [w32 (smallSigma1 (w.getD (w.length - 2) 0) + w.getD (w.length - 7) 0 +
                 smallSigma0 (w.getD (w.length - 15) 0) + w.getD (w.length - 16) 0)])
    ws

/-- One SHA-256 compression round on the eight working variables. -/
def shaRound (w : List Nat) (state : List Nat) (i : Nat) : List Nat :=
  let a := state.getD 0 0
  let b := state.getD 1 0
  let c := state.getD 2 0
  let d := state.getD 3 0
  let e := state.getD 4 0
  let f := state.getD 5 0
  let g := state.getD 6 0
  let h := state.getD 7 0
  let t1 := w32 (h + bigSigma1 e + shaCh e f g + shaK.getD i 0 + w.getD i 0)
  let t2 := w32 (bigSigma0 a + shaMaj a b c)
  [w32 (t1 + t2), a, b, c, w32 (d + t1), e, f, g]

/-- SHA-256 compression of one 64-byte block into the hash state. -/
def shaCompress (hs : List Nat) (block : List Nat) : List Nat :=
  let w := extendWords (blockWords block)
  let final := (List.range 64).foldl (shaRound w) hs
  List.zipWith (fun x y => w32 (x + y)) hs final

/-- SHA-256 of a byte sequence, as 32 bytes. -/
def sha256 (msg : List Nat) : List Nat :=
  ((toBlocks (shaPad msg)).foldl shaCompress shaH0).flatMap (bytesBE 4)

/-! ## Timestamp normalization (`toISO8601` in outbox.ts, featured.ts, post.ts) -/

/-- Embeds `toISO8601`: `datetime.replace(' ', 'T')` (JavaScript
`replace` with a string pattern substitutes only the first occurrence),
then `+= 'Z'` unless the string already ends with `'Z'` (the last
character is `'Z'`). -/
def toISO8601 (datetime : String) : String :=
  let iso := replaceFirstChar ' ' 'T' datetime.data
  if iso.getLast? = some 'Z' then ⟨iso⟩ else ⟨iso ++ ['Z']⟩

/-! ## WebFinger handler (webfinger.ts) -/

/-- Constant `DOMAIN` in webfinger.ts. -/
def webfingerDomain : String := "mb.krnk.app"

/-- Constant `ALLOWED_DOMAINS` in webfinger.ts: the primary domain plus
the legacy `mb-api.krnk.app` alias. -/
def webfingerAllowedDomains : List String := [webfingerDomain, "mb-api.krnk.app"]

/-- Constant `USERNAME` in webfinger.ts. -/
def webfingerUsername : String := "default"

/-- The actor URL used in the JRD `self` link and aliases. -/
def webfingerActorUrl : String := "https://" ++ webfingerDomain ++ "/api/activitypub/actor"

/-- One entry of the JRD `links` array. -/
structure JrdLink where
  rel : String
  type : String
  href : String
deriving DecidableEq

/-- The JSON Resource Descriptor returned on success. -/
structure Jrd where
  subject : String
  aliases : List String
  links : List JrdLink
deriving DecidableEq

/-- The body of a WebFinger response: either an error object with an
`error` field, or a JRD document. -/
inductive WebFingerBody where
  | error (message : String)
  | jrd (doc : Jrd)
deriving DecidableEq

/-- A WebFinger HTTP response: status code and body. -/
structure WfResponse where
  status : Nat
  body : WebFingerBody
deriving DecidableEq

/-- The check `ALLOWED_DOMAINS.includes(domain)` on the second
`@`-component: when no second component exists the JavaScript `domain`
is `undefined` and `includes` is false. -/
def webfingerDomainAllowed (allowedDomains : List String) (parts : List (List Char)) : Bool :=
  match parts[1]? with
  | none => false
  | some d => allowedDomains.contains ⟨d⟩

/-- The first `@`-component, the JavaScript destructured `user` (a
split result always has a first component). -/
def webfingerUser (parts : List (List Char)) : String := ⟨parts.getD 0 []⟩

/-- Embeds `handleWebFinger`, parameterized over the allowed-domain
list. The input is `url.searchParams.get('resource')` (`none` when the
parameter is missing). Mirrors the source: reject when missing, reject
when the `acct:` prefix is absent, then split the remainder on `@`,
take the first two components as user and domain, and answer 404
unless the domain is allowed and the user matches. -/
def handleWebFingerWith (allowedDomains : List String) (resource : Option String) : WfResponse :=
  match resource with
  | none => ⟨400, .error "Missing resource parameter"⟩
  | some res =>
    if listStartsWith "acct:".data res.data = false then
      ⟨400, .error "Invalid resource format"⟩
    else
      if !webfingerDomainAllowed allowedDomains (splitOnChar '@' (res.data.drop 5))
          || webfingerUser (splitOnChar '@' (res.data.drop 5)) != webfingerUsername then
        ⟨404, .error "User not found"⟩
      else
        ⟨200, .jrd ⟨res,
          [webfingerActorUrl],
          [⟨"self", "application/activity+json", webfingerActorUrl⟩,
           ⟨"http://webfinger.net/rel/profile-page", "text/html",
            "https://" ++ webfingerDomain⟩]⟩⟩

/-- The deployed handler: the allow-list is the module constant. -/
def handleWebFinger : Option String → WfResponse :=
  handleWebFingerWith webfingerAllowedDomains

/-- The acceptance condition of the 404-versus-200 branch, extracted
for the error-classification statement: first `@`-component equals the
configured username and second component is an allowed domain. -/
def acctAccepted (allowedDomains : List String) (acct : List Char) : Bool :=
  webfingerDomainAllowed allowedDomains (splitOnChar '@' acct) &&
  (webfingerUser (splitOnChar '@' acct) == webfingerUsername)

/-! ## Request signer (`signRequest` in keys.ts) -/

/-- The fields of `new URL(targetUrl)` that `signRequest` reads. -/
structure Url where
  host : String
  pathname : String
deriving DecidableEq

/-- The header set built by `signRequest`, together with the canonical
signing string the `Signature` header covers. -/
structure SignedHeaders where
  host : String
  date : String
  contentType : String
  digest : String
  signatureHeader : String
  signatureString : String

/-- Embeds `signRequest(targetUrl, body, privateKey, keyId)`. The
private key is modelled as the signing-only primitive
`crypto.subtle.sign('RSASSA-PKCS1-v1_5', privateKey, _)` on bytes, and
`new Date().toUTCString()` is the explicit clock value `now`. -/
def signRequest (targetUrl : Url) (body : String)
    (privateKeySign : List Nat → List Nat) (keyId : String) (now : String) : SignedHeaders :=
  let host := targetUrl.host
  let date := now
  let bodyBytes := utf8Bytes body
  let digest := "SHA-256=" ++ base64Encode (sha256 bodyBytes)
  let signedHeaderNames := ["(request-target)", "host", "date", "digest"]
  let signatureString := String.intercalate "\n"
    ["(request-target): post " ++ targetUrl.pathname,
     "host: " ++ host,
     "date: " ++ date,
     "digest: " ++ digest]
  let signatureBase64 := base64Encode (privateKeySign (utf8Bytes signatureString))
  let signatureHeader := String.intercalate ","
    ["keyId=\"" ++ keyId ++ "\"",
     "algorithm=\"rsa-sha256\"",
     "headers=\"" ++ String.intercalate " " signedHeaderNames ++ "\"",
     "signature=\"" ++ signatureBase64 ++ "\""]
  { host := host, date := date, contentType := "application/activity+json",
    digest := digest, signatureHeader := signatureHeader,
    signatureString := signatureString }

/-! ## Inbox processor (inbox.ts) -/

/-- Constant `API_DOMAIN` in inbox.ts. -/
def inboxApiDomain : String := "mb-api.krnk.app"

/-- Constant `USER_ID` in inbox.ts. -/
def inboxUserId : String := "default"

/-- The local actor URL built by the inbox handler. -/
def inboxActorUrl : String := "https://" ++ inboxApiDomain ++ "/api/activitypub/actor"

/-- The `Activity` interface of inbox.ts (the optional `@context` and
the structured `object` variants play no role in the handler and are
kept as strings). -/
structure Activity where
  id : String
  type : String
  actor : String
  object : String
deriving DecidableEq

/-- The `Actor` interface of inbox.ts: the fields read from the fetched
follower actor document. -/
structure RemoteActor where
  id : String
  inbox : String
  type : String
deriving DecidableEq

/-- Outcome of an outbound `fetch`: a success value, a non-2xx HTTP
response (`!response.ok`), or a thrown network error. -/
inductive FetchOutcome (α : Type) where
  | success (value : α)
  | httpError (status : Nat)
  | networkError
deriving DecidableEq

/-- The `Accept` activity synthesized for a Follow, embedding the
original activity verbatim. -/
structure AcceptActivity where
  id : String
  type : String
  actor : String
  object : Activity
deriving DecidableEq

/-- One observable side effect of the inbox handler: the fetch of the
remote actor document, the local key lookup, or the signed POST of the
Accept to the follower's inbox. -/
inductive InboxEffect where
  | fetchActor (url : String)
  | keyLookup (userId : String)
  | deliver (inboxUrl : String) (keyId : String) (accept : AcceptActivity)
deriving DecidableEq

/-- Result of one inbox invocation: the HTTP status returned to the
inbound caller and the ordered side effects attempted. -/
structure InboxResult where
  status : Nat
  effects : List InboxEffect
deriving DecidableEq

/-- Embeds `handleInbox`. `parsedBody` is the result of
`request.json()` (`none` on a parse failure), `actorFetch` the outcome
of `fetch(activity.actor)`, `privateKey` the result of
`getPrivateKey(env.DB, USER_ID)` as an abstract signing primitive,
`nowMillis` the `Date.now()` value used in the Accept id, and
`deliverResult` the outcome of the POST to the follower inbox (which
the source only logs, so it influences neither status nor effects). -/
def handleInbox (parsedBody : Option Activity) (actorFetch : FetchOutcome RemoteActor)
    (privateKey : Option (List Nat → List Nat)) (nowMillis : Nat)
    (deliverResult : FetchOutcome Unit) : InboxResult :=
  match parsedBody with
  | none => ⟨400, []⟩
  | some activity =>
    if activity.type ≠ "Follow" then ⟨202, []⟩
    else
      match actorFetch with
      | .httpError _ => ⟨202, [.fetchActor activity.actor]⟩
      | .networkError => ⟨202, [.fetchActor activity.actor]⟩
      | .success followerActor =>
        match privateKey with
        | none => ⟨500, [.fetchActor activity.actor, .keyLookup inboxUserId]⟩
        | some _key =>
          let keyId := inboxActorUrl ++ "#main-key"
          let accept : AcceptActivity :=
            ⟨inboxActorUrl ++ "#accept-" ++ toString nowMillis, "Accept", inboxActorUrl, activity⟩
          ⟨202, [.fetchActor activity.actor, .keyLookup inboxUserId,
                 .deliver followerActor.inbox keyId accept]⟩

/-! ## Post store and the outbox / featured collections -/

/-- The `Post` row of the `posts` table (types.ts). -/
structure Post where
  id : Nat
  content : String
  image_url : Option String
  created_at : String
deriving DecidableEq

/-- The descending `created_at` order used by the post queries:
`postGe a b` says `a` sorts no later than `b` in the descending
result. -/
def postGe (a b : Post) : Prop := strLe b.created_at a.created_at = true

instance : DecidableRel postGe :=
  fun a b => inferInstanceAs (Decidable (strLe b.created_at a.created_at = true))

instance : IsTrans Post postGe := by
  constructor
  intro a b c h1 h2
  have main : ∀ as bs cs : List Char,
      charListLe as bs = true → charListLe bs cs = true → charListLe as cs = true := by
    intro as
    induction as with
    | nil => intro bs cs _ _; rfl
    | cons a as ih =>
      intro bs cs h1 h2
      cases bs with
      | nil => simp [charListLe] at h1
      | cons b bs =>
        cases cs with
        | nil => simp [charListLe] at h2
        | cons c cs =>
          simp only [charListLe] at h1 h2 ⊢
          by_cases hab : a.toNat < b.toNat
          · by_cases hbc : b.toNat < c.toNat
            · have hac : a.toNat < c.toNat := Nat.lt_trans hab hbc
              simp [hac]
            · by_cases hcb : c.toNat < b.toNat
              · simp [hbc, hcb] at h2
              · have hac : a.toNat < c.toNat := by omega
                simp [hac]
          · by_cases hba : b.toNat < a.toNat
            · simp [hab, hba] at h1
            · by_cases hbc : b.toNat < c.toNat
              · have hac : a.toNat < c.toNat := by omega
                simp [hac]
              · by_cases hcb : c.toNat < b.toNat
                · simp [hbc, hcb] at h2
                · have hac : ¬ a.toNat < c.toNat := by omega
                  have hca : ¬ c.toNat < a.toNat := by omega
                  simp [hab, hba] at h1
                  simp [hbc, hcb] at h2
                  simp [hac, hca]
                  exact ih bs cs h1 h2
  exact main _ _ _ h2 h1

instance : IsTotal Post postGe := by
  constructor
  intro a b
  have main : ∀ as bs : List Char, charListLe as bs = true ∨ charListLe bs as = true := by
    intro as
    induction as with
    | nil => intro bs; left; rfl
    | cons a as ih =>
      intro bs
      cases bs with
      | nil => right; rfl
      | cons b bs =>
        simp only [charListLe]
        rcases Nat.lt_trichotomy a.toNat b.toNat with h | h | h
        · left; simp [h]
        · have h1 : ¬ a.toNat < b.toNat := by omega
          have h2 : ¬ b.toNat < a.toNat := by omega
          rcases ih bs with h3 | h3
          · left; simp [h1, h2, h3]
          · right; simp [h1, h2, h3]
        · right; simp [h]
  exact (main b.created_at.data a.created_at.data).imp id id

/-- Models the D1 query `SELECT * FROM posts ORDER BY created_at DESC`
over the table contents: a stable sort by descending `created_at`
under SQLite's byte-wise TEXT collation. -/
def postsByCreatedAtDesc (posts : List Post) : List Post :=
  List.insertionSort postGe posts

/-- A protocol `Note` object as emitted by the collections. -/
structure ApNote where
  id : String
  type : String
  attributedTo : String
  content : String
  published : String
  toAudience : List String
  cc : List String
  url : String
deriving DecidableEq

/-- A `Create` activity wrapping a Note, as emitted by the outbox page. -/
structure ApCreate where
  id : String
  type : String
  actor : String
  published : String
  toAudience : List String
  cc : List String
  object : ApNote
deriving DecidableEq

/-- Constant `DOMAIN` in outbox.ts. -/
def outboxDomain : String := "mb.krnk.app"

/-- Constant `API_DOMAIN` in outbox.ts. -/
def outboxApiDomain : String := "mb-api.krnk.app"

/-- The outbox collection URL. -/
def outboxUrl : String := "https://" ++ outboxApiDomain ++ "/api/activitypub/outbox"

/-- The actor URL used by the outbox. -/
def outboxActorUrl : String := "https://" ++ outboxApiDomain ++ "/api/activitypub/actor"

/-- The followers collection URL used in `cc`. -/
def outboxFollowersUrl : String := "https://" ++ outboxApiDomain ++ "/api/activitypub/followers"

/-- The ActivityStreams public collection URI. -/
def publicTarget : String := "https://www.w3.org/ns/activitystreams#Public"

/-- The `Create` activity the outbox page builds from one post. -/
def outboxCreateOf (post : Post) : ApCreate :=
  let postUrl := "https://" ++ outboxApiDomain ++ "/api/activitypub/posts/" ++ toString post.id
  let content : String := ⟨newlinesToBr post.content.data⟩
  let published := toISO8601 post.created_at
  { id := postUrl ++ "#create", type := "Create", actor := outboxActorUrl,
    published := published, toAudience := [publicTarget], cc := [outboxFollowersUrl],
    object := { id := postUrl, type := "Note", attributedTo := outboxActorUrl,
                content := content, published := published, toAudience := [publicTarget],
                cc := [outboxFollowersUrl],
                url := "https://" ++ outboxDomain ++ "/posts/" ++ toString post.id } }

/-- The bare-query response body: an `OrderedCollection` summary. -/
structure OutboxCollection where
  id : String
  type : String
  totalItems : Nat
  first : String
deriving DecidableEq

/-- The paged-query response body: an `OrderedCollectionPage`. -/
structure OutboxPage where
  id : String
  type : String
  partOf : String
  orderedItems : List ApCreate
deriving DecidableEq

/-- The two outbox response shapes. -/
inductive OutboxBody where
  | collection (c : OutboxCollection)
  | page (p : OutboxPage)
deriving DecidableEq

/-- Embeds `handleOutbox` over the post dataset. `pageParam` is
`url.searchParams.get('page')`; the page request is taken exactly when
it equals `'true'`. -/
def handleOutbox (posts : List Post) (pageParam : Option String) : OutboxBody :=
  let isPageRequest := pageParam == some "true"
  let results := postsByCreatedAtDesc posts
  if isPageRequest = false then
    .collection ⟨outboxUrl, "OrderedCollection", results.length, outboxUrl ++ "?page=true"⟩
  else
    .page ⟨outboxUrl ++ "?page=true", "OrderedCollectionPage", outboxUrl,
           results.map outboxCreateOf⟩

/-- Constant `DOMAIN` in featured.ts. -/
def featuredDomain : String := "mb.krnk.app"

/-- Constant `API_DOMAIN` in featured.ts (the unified domain). -/
def featuredApiDomain : String := "mb.krnk.app"

/-- Constant `FEATURED_COUNT` in featured.ts. -/
def featuredCount : Nat := 5

/-- The featured collection URL. -/
def featuredUrl : String := "https://" ++ featuredApiDomain ++ "/api/activitypub/featured"

/-- The actor URL used by the featured collection. -/
def featuredActorUrl : String := "https://" ++ featuredApiDomain ++ "/api/activitypub/actor"

/-- The followers URL used by the featured collection. -/
def featuredFollowersUrl : String :=
  "https://" ++ featuredApiDomain ++ "/api/activitypub/followers"

/-- Models the D1 query
`SELECT * FROM posts ORDER BY created_at DESC LIMIT 5`. -/
def featuredPosts (posts : List Post) : List Post :=
  (postsByCreatedAtDesc posts).take featuredCount

/-- The bare `Note` object the featured collection builds from one
post (not wrapped in a `Create`). -/
def featuredNoteOf (post : Post) : ApNote :=
  let postUrl := "https://" ++ featuredApiDomain ++ "/api/activitypub/posts/" ++ toString post.id
  let content : String := ⟨newlinesToBr post.content.data⟩
  let published := toISO8601 post.created_at
  { id := postUrl, type := "Note", attributedTo := featuredActorUrl, content := content,
    published := published, toAudience := [publicTarget], cc := [featuredFollowersUrl],
    url := "https://" ++ featuredDomain ++ "/posts/" ++ toString post.id }

/-- The featured response body: an `OrderedCollection` with inline
items. -/
structure FeaturedCollection where
  id : String
  type : String
  totalItems : Nat
  orderedItems : List ApNote
deriving DecidableEq

/-- Embeds `handleFeatured` over the post dataset. -/
def handleFeatured (posts : List Post) : FeaturedCollection :=
  let results := featuredPosts posts
  let orderedItems := results.map featuredNoteOf
  ⟨featuredUrl, "OrderedCollection", orderedItems.length, orderedItems⟩

/-! ## Key manager storage (keys.ts and migration 0003) -/

/-- One row of the `account_keys` table. -/
structure AccountKeyRow where
  id : Nat
  user_id : String
  rsa_public_key : String
  rsa_private_key : String
  created_at : String
deriving DecidableEq

/-- A constraint violation raised by the storage layer. -/
inductive SqlError where
  | uniqueConstraintViolation (table column : String)
deriving DecidableEq

/-- Models `INSERT INTO account_keys (user_id, rsa_public_key,
rsa_private_key, created_at) VALUES (?, ?, ?, ?)` against the schema
of migration 0003, whose `user_id TEXT NOT NULL UNIQUE` column makes
the insert fail when a row with the same `user_id` already exists. -/
def insertAccountKey (table : List AccountKeyRow) (userId pub priv createdAt : String) :
    Except SqlError (List AccountKeyRow) :=
  if table.any (fun r => r.user_id == userId) then
    .error (.uniqueConstraintViolation "account_keys" "user_id")
  else
    .ok (table ++ [⟨table.length + 1, userId, pub, priv, createdAt⟩])

/-- Embeds `generateAndStoreKeyPair(db, userId)`: the freshly generated
JWK pair and the `new Date().toISOString()` timestamp are explicit
inputs, and the function stores them as one `account_keys` row. -/
def generateAndStoreKeyPair (table : List AccountKeyRow)
    (userId publicJwk privateJwk now : String) : Except SqlError (List AccountKeyRow) :=
  insertAccountKey table userId publicJwk privateJwk now

/-! ## Helper lemmas -/

/-- Replacing a character that does not occur is the identity. -/
theorem replaceFirstChar_of_count_zero (c r : Char) (l : List Char) (h : l.count c = 0) :
    replaceFirstChar c r l = l := by
  induction l with
  | nil => rfl
  | cons x xs ih =>
    by_cases hx : x = c
    · subst hx; simp [List.count_cons] at h
    · have h' : xs.count c = 0 := by simpa [List.count_cons, hx] using h
      simp [replaceFirstChar, hx, ih h']

/-- After replacing the first space by `T`, a string with at most one
space has none left. -/
theorem count_space_replaceFirstChar (l : List Char) (h : l.count ' ' ≤ 1) :
    (replaceFirstChar ' ' 'T' l).count ' ' = 0 := by
  induction l with
  | nil => rfl
  | cons x xs ih =>
    by_cases hx : x = ' '
    · subst hx
      have hxs : xs.count ' ' = 0 := by simp [List.count_cons] at h; omega
      simp [replaceFirstChar, List.count_cons, hxs]
    · have h' : xs.count ' ' ≤ 1 := by simpa [List.count_cons, hx] using h
      simp [replaceFirstChar, hx, List.count_cons, ih h']

/-- Splitting a list that opens with a separator-free prefix followed
by the separator yields that prefix as the first component. -/
theorem splitOnChar_append_cons (c : Char) (xs rest : List Char) (h : c ∉ xs) :
    splitOnChar c (xs ++ c :: rest) = xs :: splitOnChar c rest := by
  induction xs with
  | nil => simp [splitOnChar]
  | cons x xs ih =>
    have hx : ¬ x = c := fun hxc => h (by simp [hxc])
    have h' : c ∉ xs := fun hc => h (List.mem_cons_of_mem _ hc)
    simp [splitOnChar, hx, ih h']

/-- The domain check on a split result with at least two components
reads exactly the second component. -/
theorem webfingerDomainAllowed_cons_cons (ad : List String) (a b : List Char)
    (t : List (List Char)) :
    webfingerDomainAllowed ad (a :: b :: t) = ad.contains ⟨b⟩ := by
  simp [webfingerDomainAllowed]

/-- The user of a split result is its first component. -/
theorem webfingerUser_cons (a : List Char) (t : List (List Char)) :
    webfingerUser (a :: t) = ⟨a⟩ := rfl

/-- Unfolding of the WebFinger handler on a present resource. -/
theorem handleWebFingerWith_some (ad : List String) (res : String) :
    handleWebFingerWith ad (some res) =
      (if listStartsWith "acct:".data res.data = false then
        ⟨400, .error "Invalid resource format"⟩
      else if !webfingerDomainAllowed ad (splitOnChar '@' (res.data.drop 5))
          || webfingerUser (splitOnChar '@' (res.data.drop 5)) != webfingerUsername then
        ⟨404, .error "User not found"⟩
      else
        ⟨200, .jrd ⟨res, [webfingerActorUrl],
          [⟨"self", "application/activity+json", webfingerActorUrl⟩,
           ⟨"http://webfinger.net/rel/profile-page", "text/html",
            "https://" ++ webfingerDomain⟩]⟩⟩ : WfResponse) := rfl

/-- Joining four strings with newlines is the left-associated
concatenation of the lines and separators. -/
theorem intercalate_newline_four (a b c d : String) :
    String.intercalate "\n" [a, b, c, d] = a ++ "\n" ++ b ++ "\n" ++ c ++ "\n" ++ d := by
  simp [String.intercalate, String.intercalate.go, String.append_assoc]

/-! ## Claims -/

/-- C6 counterexample: applying `toISO8601` twice to a string with two
spaces differs from applying it once, because only the first space is
replaced and the appended `Z` prevents a second append. -/
theorem toISO8601_not_idempotent :
    toISO8601 (toISO8601 "a b c") ≠ toISO8601 "a b c" := by decide

/-- C6 (amended): `toISO8601` substitutes the first space separator
with `T` and appends `Z` when the string does not already end with
`Z`; it maps the specified examples as stated and is idempotent for
every input containing at most one space (database timestamps have
exactly one), though not for arbitrary strings. -/
theorem toISO8601_normalization :
    toISO8601 "2025-12-02 16:42:15" = "2025-12-02T16:42:15Z"
    ∧ toISO8601 "2025-12-02T16:42:15Z" = "2025-12-02T16:42:15Z"
    ∧ ∀ s : String, s.data.count ' ' ≤ 1 → toISO8601 (toISO8601 s) = toISO8601 s := by
  refine ⟨by decide, by decide, ?_⟩
  intro s h
  have hm0 : (replaceFirstChar ' ' 'T' s.data).count ' ' = 0 :=
    count_space_replaceFirstChar s.data h
  unfold toISO8601
  by_cases hz : (replaceFirstChar ' ' 'T' s.data).getLast? = some 'Z'
  · simp only [hz, if_pos]
    rw [replaceFirstChar_of_count_zero _ _ _ hm0]
    simp [hz]
  · simp only [hz, if_neg, if_false]
    have hc : (replaceFirstChar ' ' 'T' s.data ++ ['Z']).count ' ' = 0 := by
      simp [List.count_append, hm0]
    rw [replaceFirstChar_of_count_zero _ _ _ hc]
    simp [List.getLast?_concat]

/-- C6 witness: the amended idempotence applied to the canonical
database-timestamp shape. -/
theorem toISO8601_normalization_witness :
    toISO8601 (toISO8601 "2025-12-02 16:42:15") = toISO8601 "2025-12-02 16:42:15" :=
  toISO8601_normalization.2.2 "2025-12-02 16:42:15" (by decide)

/-- C9: the `account_keys` schema enforces UNIQUE on `user_id`, so
after a successful `generateAndStoreKeyPair` for an owner, a second
call for the same owner fails with a uniqueness-constraint violation
instead of creating a duplicate row. -/
theorem generateAndStoreKeyPair_unique_violation_on_second_call
    (table table' : List AccountKeyRow) (u p1 q1 t1 p2 q2 t2 : String)
    (h : generateAndStoreKeyPair table u p1 q1 t1 = .ok table') :
    generateAndStoreKeyPair table' u p2 q2 t2 =
      Except.error (SqlError.uniqueConstraintViolation "account_keys" "user_id") := by
  unfold generateAndStoreKeyPair insertAccountKey at h ⊢
  by_cases hc : table.any (fun r => r.user_id == u)
  · simp [hc] at h
  · rw [if_neg (by simp [hc])] at h
    injection h with h'
    subst h'
    have hany : ((table ++ [(⟨table.length + 1, u, p1, q1, t1⟩ : AccountKeyRow)]).any
        (fun r => r.user_id == u)) = true := by
      simp [List.any_append]
    rw [if_pos hany]

/-- C9 witness: generating for `default` on an empty table and then a
second time hits the constraint. -/
theorem generateAndStoreKeyPair_unique_violation_witness :
    generateAndStoreKeyPair [⟨1, "default", "pubJwk", "privJwk", "t0"⟩]
        "default" "pubJwk2" "privJwk2" "t1" =
      Except.error (SqlError.uniqueConstraintViolation "account_keys" "user_id") :=
  generateAndStoreKeyPair_unique_violation_on_second_call
    [] _ "default" "pubJwk" "privJwk" "t0" "pubJwk2" "privJwk2" "t1" rfl

/-- C2: when an inbound body parses as a Follow and the fetch of the
document at `activity.actor` fails (network error or non-success HTTP
status), the inbox handler returns 202 and its only side effect is
that single actor fetch: no Accept is delivered and nothing is retried
or queued. -/
theorem handleInbox_follow_actor_fetch_failure_acknowledged
    (a : Activity) (actorFetch : FetchOutcome RemoteActor)
    (privateKey : Option (List Nat → List Nat)) (nowMillis : Nat)
    (deliverResult : FetchOutcome Unit)
    (hFollow : a.type = "Follow")
    (hFail : actorFetch = .networkError ∨ ∃ s, actorFetch = .httpError s) :
    handleInbox (some a) actorFetch privateKey nowMillis deliverResult =
      ⟨202, [InboxEffect.fetchActor a.actor]⟩ := by
  rcases hFail with h | ⟨s, h⟩ <;> subst h <;> simp [handleInbox, hFollow]

/-- C2 witness: a concrete Follow whose actor fetch hits a network
error is acknowledged with 202 after exactly one fetch attempt. -/
theorem handleInbox_follow_actor_fetch_failure_witness :
    handleInbox
      (some ⟨"https://remote.example/follow/1", "Follow",
        "https://remote.example/users/alice", "https://mb-api.krnk.app/api/activitypub/actor"⟩)
      FetchOutcome.networkError none 0 FetchOutcome.networkError =
      ⟨202, [InboxEffect.fetchActor "https://remote.example/users/alice"]⟩ :=
  handleInbox_follow_actor_fetch_failure_acknowledged _ _ _ _ _ rfl (Or.inl rfl)

/-- C7: an inbound activity whose type is not `Follow` is acknowledged
with 202 and triggers no further action at all: no fetch, no key
lookup, no delivery. -/
theorem handleInbox_non_follow_no_action
    (a : Activity) (actorFetch : FetchOutcome RemoteActor)
    (privateKey : Option (List Nat → List Nat)) (nowMillis : Nat)
    (deliverResult : FetchOutcome Unit)
    (h : a.type ≠ "Follow") :
    handleInbox (some a) actorFetch privateKey nowMillis deliverResult = ⟨202, []⟩ := by
  simp [handleInbox, h]

/-- C7 witness: a concrete Like activity is acknowledged with no side
effects. -/
theorem handleInbox_non_follow_no_action_witness :
    handleInbox
      (some ⟨"https://remote.example/like/1", "Like",
        "https://remote.example/users/alice", "https://mb-api.krnk.app/api/activitypub/posts/1"⟩)
      FetchOutcome.networkError none 0 FetchOutcome.networkError = ⟨202, []⟩ :=
  handleInbox_non_follow_no_action _ _ _ _ _ (by decide)

/-- C1: `signRequest` builds its canonical signing string as exactly
four newline-joined lines in the order request-target, host, date,
digest, where the digest header value is `SHA-256=` followed by the
base64 SHA-256 of the body; and with a fixed clock the digest is a
function of the body alone, so the digest and the canonical-string
structure are the same for the same inputs. -/
theorem signRequest_canonical_signing_string (u : Url) (body : String)
    (sign : List Nat → List Nat) (keyId now : String) :
    (signRequest u body sign keyId now).signatureString =
      "(request-target): post " ++ u.pathname ++ "\n" ++
      ("host: " ++ u.host) ++ "\n" ++ ("date: " ++ now) ++ "\n" ++
      ("digest: " ++ (signRequest u body sign keyId now).digest)
    ∧ (signRequest u body sign keyId now).digest =
      "SHA-256=" ++ base64Encode (sha256 (utf8Bytes body))
    ∧ ∀ (u2 : Url) (sign2 : List Nat → List Nat) (keyId2 now2 : String),
        (signRequest u2 body sign2 keyId2 now2).digest =
          (signRequest u body sign keyId now).digest := by
  refine ⟨?_, rfl, fun _ _ _ _ => rfl⟩
  rw [show (signRequest u body sign keyId now).signatureString =
        String.intercalate "\n"
          ["(request-target): post " ++ u.pathname,
           "host: " ++ u.host,
           "date: " ++ now,
           "digest: " ++ ("SHA-256=" ++ base64Encode (sha256 (utf8Bytes body)))] from rfl]
  rw [intercalate_newline_four]
  rfl

/-- C5: for every fixed post dataset, the `totalItems` field of the
bare outbox query equals the number of `orderedItems` of the paged
query over the same dataset. -/
theorem outbox_totalItems_eq_page_items_length
    (posts : List Post) (c : OutboxCollection) (p : OutboxPage)
    (hc : handleOutbox posts none = .collection c)
    (hp : handleOutbox posts (some "true") = .page p) :
    c.totalItems = p.orderedItems.length := by
  rw [show handleOutbox posts none = OutboxBody.collection
        ⟨outboxUrl, "OrderedCollection", (postsByCreatedAtDesc posts).length,
         outboxUrl ++ "?page=true"⟩ from rfl] at hc
  rw [show handleOutbox posts (some "true") = OutboxBody.page
        ⟨outboxUrl ++ "?page=true", "OrderedCollectionPage", outboxUrl,
         (postsByCreatedAtDesc posts).map outboxCreateOf⟩ from rfl] at hp
  cases hc
  cases hp
  simp [List.length_map]

/-- C5 witness: a concrete two-post dataset where the bare query
reports 2 and the page carries 2 items. -/
theorem outbox_totalItems_eq_page_items_length_witness :
    (OutboxCollection.mk outboxUrl "OrderedCollection" 2 (outboxUrl ++ "?page=true")).totalItems
      = (OutboxPage.mk (outboxUrl ++ "?page=true") "OrderedCollectionPage" outboxUrl
          ((postsByCreatedAtDesc
              [⟨1, "hello", none, "2025-01-01 10:00:00"⟩,
               ⟨2, "world", none, "2025-01-02 10:00:00"⟩]).map outboxCreateOf)).orderedItems.length :=
  outbox_totalItems_eq_page_items_length
    [⟨1, "hello", none, "2025-01-01 10:00:00"⟩, ⟨2, "world", none, "2025-01-02 10:00:00"⟩]
    _ _ rfl rfl

/-- C8: the featured collection returns at most `FEATURED_COUNT`
items, they are exactly the most recent posts in descending
`created_at` order, and every item is a bare Note object with type
`Note` rather than a Create-wrapped activity. -/
theorem handleFeatured_at_most_five_recent_notes (posts : List Post) :
    (handleFeatured posts).orderedItems.length ≤ featuredCount
    ∧ (∀ item ∈ (handleFeatured posts).orderedItems, item.type = "Note")
    ∧ (handleFeatured posts).orderedItems = (featuredPosts posts).map featuredNoteOf
    ∧ List.Sorted postGe (featuredPosts posts) := by
  refine ⟨?_, ?_, rfl, ?_⟩
  · show ((featuredPosts posts).map featuredNoteOf).length ≤ featuredCount
    rw [List.length_map]
    exact List.length_take_le _ _
  · intro item hitem
    rw [show (handleFeatured posts).orderedItems
          = (featuredPosts posts).map featuredNoteOf from rfl] at hitem
    rw [List.mem_map] at hitem
    obtain ⟨post, -, rfl⟩ := hitem
    rfl
  · exact List.Pairwise.sublist (List.take_sublist _ _)
      (List.sorted_insertionSort postGe posts)

/-- C3 counterexample: the shape-malformed resource `acct:nodomain`
(no `user@domain` shape after the scheme) is answered with 404, not
with the invalid-resource 400 the claim requires: the handler splits
on `@`, finds no second component, and falls into the not-found
branch. -/
theorem handleWebFinger_shapeless_resource_not_400 :
    (handleWebFinger (some "acct:nodomain")).status = 404
    ∧ (handleWebFinger (some "acct:nodomain")).status ≠ 400 :=
  ⟨by decide, by decide⟩

/-- C3 (amended): the handler answers 400 exactly when the resource
parameter is missing or the `acct:` scheme prefix is absent; every
`acct:`-prefixed resource is otherwise answered 404 exactly when the
first two `@`-components are not the configured username on an allowed
domain (in particular a shape-malformed value without `@` gets 404,
not 400), and 200 otherwise. -/
theorem handleWebFinger_error_classification (res : String) :
    (handleWebFinger none).status = 400
    ∧ (handleWebFinger (some res)).status =
      (if listStartsWith "acct:".data res.data = false then 400
       else if acctAccepted webfingerAllowedDomains (res.data.drop 5) = false then 404
       else 200) := by
  refine ⟨rfl, ?_⟩
  by_cases hs : listStartsWith "acct:".data res.data = false
  · simp [handleWebFinger, handleWebFingerWith, hs]
  · have hs' : listStartsWith "acct:".data res.data = true := by
      cases h : listStartsWith "acct:".data res.data
      · exact absurd h hs
      · rfl
    cases hA : webfingerDomainAllowed webfingerAllowedDomains
        (splitOnChar '@' (res.data.drop 5)) <;>
      cases hB : webfingerUser (splitOnChar '@' (res.data.drop 5)) == webfingerUsername <;>
        simp [handleWebFinger, handleWebFingerWith, acctAccepted, hs', hA, hB, bne]

/-- C4: the WebFinger account check is driven by the configurable
allow-list `ALLOWED_DOMAINS`, which contains the legacy alias
`mb-api.krnk.app` besides the primary domain, and a resource naming
the account on either domain is answered with a 200 JRD. -/
theorem handleWebFinger_accepts_legacy_domain_alias :
    handleWebFinger = handleWebFingerWith webfingerAllowedDomains
    ∧ webfingerAllowedDomains = [webfingerDomain, "mb-api.krnk.app"]
    ∧ "mb-api.krnk.app" ≠ webfingerDomain
    ∧ (handleWebFinger (some "acct:default@mb-api.krnk.app")).status = 200
    ∧ (handleWebFinger (some "acct:default@mb.krnk.app")).status = 200 :=
  ⟨rfl, rfl, by decide, by decide, by decide⟩

/-- C10: the handler splits the acct value on `@` and inspects only
the first two components, so for every suffix `s` the resource
`acct:default@mb.krnk.app@s` is accepted and answered with a 200
JRD instead of being rejected. -/
theorem handleWebFinger_extra_at_components_accepted (s : String) :
    (handleWebFinger (some ("acct:default@mb.krnk.app@" ++ s))).status = 200
    ∧ ∃ doc, (handleWebFinger (some ("acct:default@mb.krnk.app@" ++ s))).body =
        WebFingerBody.jrd doc := by
  have hdata : ("acct:default@mb.krnk.app@" ++ s).data
      = "acct:default@mb.krnk.app@".data ++ s.data := String.data_append _ _
  have h1 : ("acct:default@mb.krnk.app@" ++ s).data.take 5 = "acct:".data := by
    rw [hdata, List.take_append_of_le_length (by decide)]
    decide
  have hstart : listStartsWith "acct:".data ("acct:default@mb.krnk.app@" ++ s).data = true := by
    unfold listStartsWith
    rw [show ("acct:".data : List Char).length = 5 from by decide, h1]
    simp
  have hacct : ("acct:default@mb.krnk.app@" ++ s).data.drop 5
      = "default".data ++ '@' :: ("mb.krnk.app".data ++ '@' :: s.data) := by
    rw [hdata, List.drop_append_of_le_length (by decide)]
    rw [show ("acct:default@mb.krnk.app@".data : List Char).drop 5
          = "default".data ++ '@' :: ("mb.krnk.app".data ++ ['@']) from by decide]
    simp [List.append_assoc]
  have hsp : splitOnChar '@' ("default".data ++ '@' :: ("mb.krnk.app".data ++ '@' :: s.data))
      = "default".data :: splitOnChar '@' ("mb.krnk.app".data ++ '@' :: s.data) :=
    splitOnChar_append_cons _ _ _ (by decide)
  have hsp2 : splitOnChar '@' ("mb.krnk.app".data ++ '@' :: s.data)
      = "mb.krnk.app".data :: splitOnChar '@' s.data :=
    splitOnChar_append_cons _ _ _ (by decide)
  have hparts : splitOnChar '@' (("acct:default@mb.krnk.app@" ++ s).data.drop 5)
      = "default".data :: "mb.krnk.app".data :: splitOnChar '@' s.data := by
    rw [hacct, hsp, hsp2]
  have hA : webfingerDomainAllowed webfingerAllowedDomains
      (splitOnChar '@' (("acct:default@mb.krnk.app@" ++ s).data.drop 5)) = true := by
    rw [hparts, webfingerDomainAllowed_cons_cons]
    decide
  have hB : webfingerUser (splitOnChar '@' (("acct:default@mb.krnk.app@" ++ s).data.drop 5))
      = "default" := by
    rw [hparts, webfingerUser_cons]
  have hres : handleWebFinger (some ("acct:default@mb.krnk.app@" ++ s)) =
      ⟨200, .jrd ⟨"acct:default@mb.krnk.app@" ++ s, [webfingerActorUrl],
        [⟨"self", "application/activity+json", webfingerActorUrl⟩,
         ⟨"http://webfinger.net/rel/profile-page", "text/html",
          "https://" ++ webfingerDomain⟩]⟩⟩ := by
    rw [show handleWebFinger (some ("acct:default@mb.krnk.app@" ++ s))
          = handleWebFingerWith webfingerAllowedDomains
              (some ("acct:default@mb.krnk.app@" ++ s)) from rfl]
    rw [handleWebFingerWith_some]
    rw [if_neg (show ¬(listStartsWith "acct:".data
          ("acct:default@mb.krnk.app@" ++ s).data = false) from by rw [hstart]; decide)]
    rw [hA, hB]
    rw [if_neg (by decide)]
  rw [hres]
  exact ⟨rfl, _, rfl⟩

end Microblog
